import Mathlib

/-!
Verification development for the essay-book generator script (`bot.py`).

The script drives a fixed theme matrix through a chat-completion API and
renders the accumulated results as one Markdown document.  This file gives a
shallow embedding of its data model and operations:

* dictionaries that the script builds (`theme_data`, category objects, the
  `full_data` list) become structures with one field per key that the script
  ever stores; the genre keys `narrative` / `argumentative`, which may be
  absent, become `Option` fields;
* the API is an environment `api : String → Nat → Except String String`
  mapping a prompt and an attempt index to either a raised exception message
  (`Except.error`) or returned completion text (`Except.ok`);
* Python's in-place mutation is embedded as explicit state passing; the one
  aliasing fact that matters (after `_update_data` appends `current_category`
  to `full_data`, both names denote the same object) is tracked by the
  `SimState.curr` field, which is either a standalone category value or the
  index of the aliased category inside `full_data`;
* Chinese dictionary keys are transliterated to ASCII field names, since Lean
  identifiers cannot contain CJK characters: `分类` (category key) → `cat`,
  `主题` (theme key) → `theme`, `关键词` (keywords) → `keywords`,
  `生成时间` (generation time) → `gen_time`, `文体` (genre label) →
  `genre_label`.  String contents stay verbatim.
-/

/-- The two genres of `self.template` (keys "narrative" and "argumentative"). -/
inductive Genre where
  | narrative
  | argumentative
deriving DecidableEq

/-- The `metadata` dictionary built in `generate_single_essay`
(`生成时间`, `文体`, `关键词`). -/
structure Metadata where
  gen_time : String
  genre_label : String
  keywords : List String
deriving DecidableEq

/-- The `essay_data` dictionary returned by `generate_single_essay`:
stripped content plus metadata. -/
structure Essay where
  content : String
  metadata : Metadata
deriving DecidableEq

/-- A `theme_data` dictionary as built in `generate_book`: keys `分类`
(`cat`), `主题` (`theme`), `关键词` (`keywords`), and the optional genre
keys `narrative` / `argumentative`. -/
structure ThemeData where
  cat : String
  theme : String
  keywords : List String
  narrative : Option Essay
  argumentative : Option Essay
deriving DecidableEq

/-- A category object inside `full_data`: keys `分类` (`cat`) and `themes`. -/
structure Category where
  cat : String
  themes : List ThemeData
deriving DecidableEq

/-- One row of `self.theme_matrix`: keys `分类` (`cat`), `主题` (a list of
theme names, `themes`), `关键词` (`keywords`). -/
structure CatInfo where
  cat : String
  themes : List String
  keywords : List String
deriving DecidableEq

/-- `self.theme_matrix` from `__init__`, verbatim. -/
def theme_matrix : List CatInfo :=
  [ ⟨"成长类", ["坚持", "挫折", "自我突破"], ["成长", "勇气"]⟩,
    ⟨"情感类", ["亲情", "师生情", "陌生人温暖"], ["温暖", "感动"]⟩,
    ⟨"社会类", ["传统文化", "科技伦理", "环境保护"], ["传承", "责任"]⟩ ]

/-- `self.template["narrative"]` from `__init__`, verbatim. -/
def narrative_template : String :=
  "你是一位中考作文专家，请根据以下要求创作记叙文：\n主题：{theme}\n要求：\n1. 使用【{object}】作为核心意象\n2. 包含3个感官细节（视觉/听觉/触觉各1个）\n3. 采用双线结构（明线：{object}变化，暗线：情感变化）\n4. 结尾用\"原来...\"句式升华"

/-- `self.template["argumentative"]` from `__init__`, verbatim. -/
def argumentative_template : String :=
  "你是一位中考作文专家，请根据以下要求创作议论文：\n主题：{theme}\n要求：\n1. 使用\"现象-论点-正反论证-结论\"结构\n2. 包含1句古诗文引用和1个现代案例\n3. 结尾使用排比句式\n4. 关键词：{keywords}"

/-- `self.template[genre]`. -/
def template : Genre → String
  | .narrative => narrative_template
  | .argumentative => argumentative_template

/-- One pass of Python `str.format` over the template characters for the
field names `theme`, `object`, `keywords` used by `generate_single_essay`.
A placeholder is replaced by the corresponding value and, as in Python,
the substituted value is never rescanned.  (The catch-all branch keeps
other characters unchanged; the templates contain no braces besides the
three placeholders, so Python's error behaviour on stray braces is never
exercised.) -/
def fmt_aux (t o k : String) : List Char → List Char
  | '{' :: 't' :: 'h' :: 'e' :: 'm' :: 'e' :: '}' :: rest => t.data ++ fmt_aux t o k rest
  | '{' :: 'o' :: 'b' :: 'j' :: 'e' :: 'c' :: 't' :: '}' :: rest => o.data ++ fmt_aux t o k rest
  | '{' :: 'k' :: 'e' :: 'y' :: 'w' :: 'o' :: 'r' :: 'd' :: 's' :: '}' :: rest => k.data ++ fmt_aux t o k rest
  | c :: rest => c :: fmt_aux t o k rest
  | [] => []

/-- `tpl.format(theme=t, object=o, keywords=k)`. -/
def pyFormat (tpl t o k : String) : String := ⟨fmt_aux t o k tpl.data⟩

/-- The characters stripped by Python `str.strip()` (ASCII whitespace). -/
def is_py_space (c : Char) : Bool :=
  c = ' ' || c = '\t' || c = '\n' || c = '\r' || c = Char.ofNat 11 || c = Char.ofNat 12

/-- Python `str.strip()`: drop leading and trailing whitespace. -/
def py_strip (s : String) : String :=
  ⟨((s.data.dropWhile is_py_space).reverse.dropWhile is_py_space).reverse⟩

/-- The prompt built at the top of `generate_single_essay`:
`self.template[genre].format(theme=theme_info["主题"],
object=theme_info["关键词"][0], keywords="、".join(theme_info["关键词"]))`.
`keywords.headD ""` models the `[0]` indexing; the script only ever passes
non-empty keyword lists (Python would raise `IndexError` on an empty one). -/
def build_prompt (ti : ThemeData) (genre : Genre) : String :=
  pyFormat (template genre) ti.theme (ti.keywords.headD "") (String.intercalate "、" ti.keywords)

/-- Value semantics of `call_deepseek`'s retry loop, recursing over the
remaining attempts: attempt `i` either returns its content or raises, in
which case the loop sleeps and moves on; after the last attempt the
function returns `None`. -/
def call_aux (api : Nat → Except String String) (i : Nat) : Nat → Option String
  | 0 => none
  | fuel + 1 =>
    match api i with
    | .ok c => some c
    | .error _ => call_aux api (i + 1) fuel

/-- `call_deepseek(prompt, retry)`: the result of the retry loop, `none`
standing for Python's `None`. -/
def call_deepseek (api : Nat → Except String String) (retry : Nat) : Option String :=
  call_aux api 0 retry

/-- Observable events of one `call_deepseek` run: an API call (`attempt i`
is the iteration `attempt` of the loop), a `time.sleep(secs)`, and the
final return. -/
inductive Ev where
  | attempt (i : Nat)
  | sleep (secs : Nat)
  | ret (r : Option String)
deriving DecidableEq

/-- Event trace of `call_deepseek`: each successful attempt returns at
once; each failing attempt is followed by `time.sleep(2)`; falling off the
loop returns `None`. -/
def call_trace_aux (api : Nat → Except String String) (i : Nat) : Nat → List Ev
  | 0 => [.ret none]
  | fuel + 1 =>
    match api i with
    | .ok c => [.attempt i, .ret (some c)]
    | .error _ => .attempt i :: .sleep 2 :: call_trace_aux api (i + 1) fuel

/-- The full trace of `call_deepseek(prompt, retry)`. -/
def call_deepseek_trace (api : Nat → Except String String) (retry : Nat) : List Ev :=
  call_trace_aux api 0 retry

/-- Number of API calls recorded in a trace. -/
def count_attempts (l : List Ev) : Nat :=
  l.countP fun e => match e with | .attempt _ => true | _ => false

/-- Number of sleeps recorded in a trace. -/
def count_sleeps (l : List Ev) : Nat :=
  l.countP fun e => match e with | .sleep _ => true | _ => false

/-- Every sleep in the trace waits exactly 2 seconds. -/
def sleeps_all_two (l : List Ev) : Bool :=
  l.all fun e => match e with | .sleep s => s == 2 | _ => true

/-- Scanner for `sep_chk`: the flag records "an attempt was seen and no
sleep has occurred since".  A second attempt while the flag is set means
two consecutive attempts without a wait between them. -/
def sep_chk_aux (after : Bool) : List Ev → Bool
  | [] => true
  | .attempt _ :: rest => if after then false else sep_chk_aux true rest
  | .sleep _ :: rest => sep_chk_aux false rest
  | .ret _ :: rest => sep_chk_aux after rest

/-- `sep_chk l = true` iff between any two consecutive attempts of `l`
there is at least one sleep. -/
def sep_chk (l : List Ev) : Bool := sep_chk_aux false l

/-- Scanner for `follow_chk`: the flag records "the previous event was an
attempt". -/
def follow_chk_aux (prev : Bool) : List Ev → Bool
  | [] => true
  | .attempt _ :: rest => follow_chk_aux true rest
  | .sleep _ :: rest => if prev then follow_chk_aux false rest else false
  | .ret _ :: rest => follow_chk_aux false rest

/-- `follow_chk l = true` iff every sleep of `l` comes immediately after
an attempt. -/
def follow_chk (l : List Ev) : Bool := follow_chk_aux false l

/-- `true` iff every sleep of the trace is followed, later in the trace, by
some attempt.  Together with `follow_chk` this says each wait sits between
two attempts. -/
def sleeps_before_attempts : List Ev → Bool
  | [] => true
  | .sleep _ :: rest =>
      (rest.any fun e => match e with | .attempt _ => true | _ => false) && sleeps_before_attempts rest
  | _ :: rest => sleeps_before_attempts rest

/-- `generate_single_essay(theme_info, genre)`: build the prompt, run
`call_deepseek`, return `None` when the content is falsy (`None` or the
empty string, Python's `if not content`), otherwise package the stripped
content with its metadata.  `now` stands for `time.strftime(...)`. -/
def generate_single_essay (api : String → Nat → Except String String) (now : String)
    (ti : ThemeData) (genre : Genre) : Option Essay :=
  let prompt := build_prompt ti genre
  match call_deepseek (api prompt) 3 with
  | none => none
  | some content =>
    if content == "" then none
    else
      some ⟨py_strip content,
            ⟨now, (match genre with | .narrative => "记叙文" | .argumentative => "议论文"),
             ti.keywords⟩⟩

/-- `existing_theme.update(theme_data)`: every key present in `theme_data`
overwrites the stored one; keys absent from `theme_data` (an `Option`
field that is `none`) are left unchanged.  The keys `分类`, `主题`,
`关键词` are always present in a `theme_data` dictionary. -/
def dict_update (old new : ThemeData) : ThemeData :=
  ⟨new.cat, new.theme, new.keywords,
   (match new.narrative with | some e => some e | none => old.narrative),
   (match new.argumentative with | some e => some e | none => old.argumentative)⟩

/-- The theme half of `_update_data`: find the first entry whose `主题`
equals `theme_data["主题"]` and update it in place, else append
`theme_data` at the end. -/
def update_themes (themes : List ThemeData) (td : ThemeData) : List ThemeData :=
  match themes with
  | [] => [td]
  | t :: rest =>
    if t.theme == td.theme then dict_update t td :: rest
    else t :: update_themes rest td

/-- `_update_data(full_data, current_category, theme_data)` on values:
find the first category whose `分类` equals `current_category["分类"]` and
update its themes; if there is none, append `current_category` and return
without inserting `theme_data`. -/
def update_data (fd : List Category) (cc : Category) (td : ThemeData) : List Category :=
  match fd with
  | [] => [cc]
  | c :: rest =>
    if c.cat == cc.cat then ⟨c.cat, update_themes c.themes td⟩ :: rest
    else c :: update_data rest cc td

/-- First category of `full_data` with the given `分类` key — the object
`next((c for c in full_data if c["分类"] == key), None)` denotes. -/
def first_category (fd : List Category) (key : String) : Option Category :=
  fd.find? fun c => c.cat == key

/-- First entry of a themes list with the given `主题` key — the object
`next((t for t in themes if t["主题"] == name), None)` denotes. -/
def first_theme (themes : List ThemeData) (name : String) : Option ThemeData :=
  themes.find? fun t => t.theme == name

/-- State of `generate_book`'s mutable data: `full` is `full_data`, and
`curr` is `current_category` — either a standalone value (`Sum.inl`) or,
after `_update_data` has appended it to `full_data`, the index of the
shared object inside `full` (`Sum.inr`), so that mutations through either
name are visible through the other. -/
structure SimState where
  full : List Category
  curr : Category ⊕ Nat
deriving DecidableEq

/-- Read `current_category` through the alias. -/
def get_current (s : SimState) : Category :=
  match s.curr with
  | .inl c => c
  | .inr i => s.full.getD i ⟨"", []⟩

/-- Replace the element at an index (no-op when out of range). -/
def modify_at (f : Category → Category) : Nat → List Category → List Category
  | _, [] => []
  | 0, c :: rest => f c :: rest
  | n + 1, c :: rest => c :: modify_at f n rest

/-- `current_category["themes"].append(theme_data)` (line 141 of the
script): mutate the shared object when `current_category` lives inside
`full_data`. -/
def append_current_theme (s : SimState) (td : ThemeData) : SimState :=
  match s.curr with
  | .inl c => ⟨s.full, .inl ⟨c.cat, c.themes ++ [td]⟩⟩
  | .inr i => ⟨modify_at (fun c => ⟨c.cat, c.themes ++ [td]⟩) i s.full, .inr i⟩

/-- `_update_data` acting on the simulation state: when the category key is
already in `full_data` the first matching category object is updated in
place (if that object is the aliased `current_category`, the change is
visible through `curr` as well); otherwise `current_category` itself is
appended, which creates the alias. -/
def update_data_sim (s : SimState) (td : ThemeData) : SimState :=
  let cc := get_current s
  if s.full.any (fun c => c.cat == cc.cat) then
    ⟨update_data s.full cc td, s.curr⟩
  else
    ⟨s.full ++ [cc], .inr s.full.length⟩

/-- One iteration of the theme loop of `generate_book`: build `theme_data`,
try the narrative essay (on success store it and call `_update_data`), try
the argumentative essay likewise, then unconditionally append `theme_data`
to `current_category["themes"]`.  (`update_markdown` and `time.sleep(1)`
do not touch the data.) -/
def run_theme (api : String → Nat → Except String String) (now : String)
    (catName : String) (kws : List String) (s : SimState) (themeName : String) : SimState :=
  let td0 : ThemeData := ⟨catName, themeName, kws, none, none⟩
  let r1 :=
    match generate_single_essay api now td0 .narrative with
    | some e =>
      let td : ThemeData := ⟨td0.cat, td0.theme, td0.keywords, some e, td0.argumentative⟩
      (update_data_sim s td, td)
    | none => (s, td0)
  let r2 :=
    match generate_single_essay api now r1.2 .argumentative with
    | some e =>
      let td : ThemeData := ⟨r1.2.cat, r1.2.theme, r1.2.keywords, r1.2.narrative, some e⟩
      (update_data_sim r1.1 td, td)
    | none => r1
  append_current_theme r2.1 r2.2

/-- One iteration of the category loop of `generate_book`: fresh
`current_category`, run every theme, then append `current_category` to
`full_data` unless a category with its key is already there. -/
def run_category (api : String → Nat → Except String String) (now : String)
    (full : List Category) (ci : CatInfo) : List Category :=
  let s0 : SimState := ⟨full, .inl ⟨ci.cat, []⟩⟩
  let s1 := ci.themes.foldl (run_theme api now ci.cat ci.keywords) s0
  if s1.full.any (fun c => c.cat == (get_current s1).cat) then s1.full
  else s1.full ++ [get_current s1]

/-- `generate_book()`: fold the category loop over `self.theme_matrix`
starting from the empty `full_data`; the final value is what the last
`update_markdown(full_data)` renders. -/
def generate_book (api : String → Nat → Except String String) (now : String)
    (matrix : List CatInfo) : List Category :=
  matrix.foldl (run_category api now) []

/-- The fixed first two lines a theme contributes to the Markdown output:
`### 主题：`-heading and the keyword line. -/
def theme_header (t : ThemeData) : String :=
  "### 主题：" ++ t.theme ++ "\n" ++ "**关键词**：`" ++ String.intercalate "、" t.keywords ++ "`\n\n"

/-- The narrative section of a theme, empty when the `narrative` key is
absent. -/
def narrative_section (t : ThemeData) : String :=
  match t.narrative with
  | some e => "#### 记叙文\n---\n" ++ e.content ++ "\n\n---\n\n"
  | none => ""

/-- The argumentative section of a theme, empty when the `argumentative`
key is absent. -/
def argumentative_section (t : ThemeData) : String :=
  match t.argumentative with
  | some e => "#### 议论文\n---\n" ++ e.content ++ "\n\n---\n\n"
  | none => ""

/-- Everything the inner loop of `build_markdown` appends for one theme. -/
def theme_block (t : ThemeData) : String :=
  theme_header t ++ narrative_section t ++ argumentative_section t

/-- Concatenation of a list of strings in order (used to restate the
`+=` loops of `build_markdown` as joins of per-item blocks). -/
def str_join : List String → String
  | [] => ""
  | s :: rest => s ++ str_join rest

/-- Everything the outer loop of `build_markdown` appends for one
category. -/
def category_block (c : Category) : String :=
  "## " ++ c.cat ++ "\n\n" ++ str_join (c.themes.map theme_block)

/-- Body of the inner (per-theme) loop of `build_markdown`: the four `+=`
statements, in source order. -/
def md_theme_step (md : String) (theme : ThemeData) : String :=
  let md := md ++ "### 主题：" ++ theme.theme ++ "\n"
  let md := md ++ "**关键词**：`" ++ String.intercalate "、" theme.keywords ++ "`\n\n"
  let md :=
    match theme.narrative with
    | some e => md ++ "#### 记叙文\n---\n" ++ e.content ++ "\n\n---\n\n"
    | none => md
  match theme.argumentative with
  | some e => md ++ "#### 议论文\n---\n" ++ e.content ++ "\n\n---\n\n"
  | none => md

/-- Body of the outer (per-category) loop of `build_markdown`. -/
def md_category_step (md : String) (category : Category) : String :=
  category.themes.foldl md_theme_step (md ++ "## " ++ category.cat ++ "\n\n")

/-- `build_markdown(data)`, written as the script writes it: start from the
title and `+=` each piece in loop order. -/
def build_markdown (data : List Category) : String :=
  data.foldl md_category_step "# 中考双文体范文库\n\n"

/-- Lines of a character list that begin after some newline and start with
`p` (the first line of the list is not counted here). -/
def line_count_rest (p : List Char) : List Char → Nat
  | [] => 0
  | c :: r =>
    (if c = '\n' then (if p.isPrefixOf r then 1 else 0) else 0) + line_count_rest p r

/-- Number of lines of a character list (splitting at `'\n'`) that start
with `p`, for a pattern `p` that contains no newline. -/
def line_count (p : List Char) (l : List Char) : Nat :=
  (if p.isPrefixOf l then 1 else 0) + line_count_rest p l

/-- Number of lines of `s` that start with the string `p`. -/
def count_headed (p : String) (s : String) : Nat :=
  line_count p.data s.data

/-- A string is clean when none of its lines starts with `## ` or with
`### 主题：` — embedded in the document it then produces no line that
could be mistaken for a category heading or a theme subheading. -/
def clean_for (s : String) : Prop :=
  line_count "## ".data s.data = 0 ∧ line_count "### 主题：".data s.data = 0

/-- All strings stored in a theme entry are clean. -/
def theme_clean (t : ThemeData) : Prop :=
  clean_for t.theme ∧ clean_for (String.intercalate "、" t.keywords) ∧
  (∀ e, t.narrative = some e → clean_for e.content) ∧
  (∀ e, t.argumentative = some e → clean_for e.content)

/-- All strings stored in a category are clean. -/
def cat_clean (c : Category) : Prop :=
  clean_for c.cat ∧ ∀ t ∈ c.themes, theme_clean t

instance (s : String) : Decidable (clean_for s) := by
  unfold clean_for; infer_instance

instance (t : ThemeData) : Decidable (theme_clean t) := by
  unfold theme_clean clean_for; infer_instance

instance (c : Category) : Decidable (cat_clean c) := by
  unfold cat_clean; infer_instance

/-! ## Lemmas about the retry loop of `call_deepseek` -/

lemma count_attempts_cons (e : Ev) (l : List Ev) :
    count_attempts (e :: l) =
      (match e with | .attempt _ => 1 | _ => 0) + count_attempts l := by
  cases e <;> first
    | (simp [count_attempts, List.countP_cons]; omega)
    | simp [count_attempts, List.countP_cons]

lemma count_sleeps_cons (e : Ev) (l : List Ev) :
    count_sleeps (e :: l) =
      (match e with | .sleep _ => 1 | _ => 0) + count_sleeps l := by
  cases e <;> first
    | (simp [count_sleeps, List.countP_cons]; omega)
    | simp [count_sleeps, List.countP_cons]

lemma count_attempts_call_trace_aux (api : Nat → Except String String) :
    ∀ (fuel i : Nat), count_attempts (call_trace_aux api i fuel) ≤ fuel := by
  intro fuel
  induction fuel with
  | zero => intro i; exact Nat.le_refl 0
  | succ n ih =>
    intro i
    cases h : api i with
    | ok c =>
      have h1 : count_attempts [Ev.attempt i, Ev.ret (some c)] = 1 := rfl
      simp only [call_trace_aux, h, h1]
      omega
    | error msg =>
      simp only [call_trace_aux, h, count_attempts_cons]
      have := ih (i + 1)
      omega

lemma sleeps_all_two_call_trace_aux (api : Nat → Except String String) :
    ∀ (fuel i : Nat), sleeps_all_two (call_trace_aux api i fuel) = true := by
  intro fuel
  induction fuel with
  | zero => intro i; rfl
  | succ n ih =>
    intro i
    cases h : api i with
    | ok c => simp [call_trace_aux, h, sleeps_all_two]
    | error msg =>
      simp only [call_trace_aux, h]
      simpa [sleeps_all_two] using ih (i + 1)

lemma sep_chk_call_trace_aux (api : Nat → Except String String) :
    ∀ (fuel i : Nat), sep_chk (call_trace_aux api i fuel) = true := by
  intro fuel
  induction fuel with
  | zero => intro i; rfl
  | succ n ih =>
    intro i
    cases h : api i with
    | ok c => simp [call_trace_aux, h, sep_chk, sep_chk_aux]
    | error msg =>
      simp only [call_trace_aux, h]
      simpa [sep_chk, sep_chk_aux] using ih (i + 1)

lemma follow_chk_call_trace_aux (api : Nat → Except String String) :
    ∀ (fuel i : Nat), follow_chk (call_trace_aux api i fuel) = true := by
  intro fuel
  induction fuel with
  | zero => intro i; rfl
  | succ n ih =>
    intro i
    cases h : api i with
    | ok c => simp [call_trace_aux, h, follow_chk, follow_chk_aux]
    | error msg =>
      simp only [call_trace_aux, h]
      simpa [follow_chk, follow_chk_aux] using ih (i + 1)

lemma attempts_sleeps_call_trace_aux (api : Nat → Except String String) :
    ∀ (fuel i : Nat),
      count_attempts (call_trace_aux api i fuel) =
        count_sleeps (call_trace_aux api i fuel) +
          (if (call_aux api i fuel).isSome then 1 else 0) := by
  intro fuel
  induction fuel with
  | zero => intro i; rfl
  | succ n ih =>
    intro i
    cases h : api i with
    | ok c =>
      have h1 : count_attempts [Ev.attempt i, Ev.ret (some c)] = 1 := rfl
      have h2 : count_sleeps [Ev.attempt i, Ev.ret (some c)] = 0 := rfl
      simp only [call_trace_aux, call_aux, h, h1, h2, Option.isSome_some, if_true]
    | error msg =>
      simp only [call_trace_aux, call_aux, h, count_attempts_cons, count_sleeps_cons]
      have := ih (i + 1)
      omega

/-- C2 (amended): for every API behaviour and retry bound, the trace of
`call_deepseek` makes at most `retry` API calls, every wait is exactly the
configured 2 seconds, between any two consecutive attempts there is a
wait, and every wait immediately follows a (failed) attempt; the number of
waits equals the number of attempts except that a final successful attempt
returns without waiting.  (The claim's further condition that no wait
occurs other than *between* attempts fails: after a final failed attempt
the loop sleeps once more before returning `None`.) -/
theorem C2_call_deepseek_retry_timing (api : Nat → Except String String) (retry : Nat) :
    count_attempts (call_deepseek_trace api retry) ≤ retry ∧
    sleeps_all_two (call_deepseek_trace api retry) = true ∧
    sep_chk (call_deepseek_trace api retry) = true ∧
    follow_chk (call_deepseek_trace api retry) = true ∧
    count_attempts (call_deepseek_trace api retry) =
      count_sleeps (call_deepseek_trace api retry) +
        (if (call_deepseek api retry).isSome then 1 else 0) := by
  refine ⟨?_, ?_, ?_, ?_, ?_⟩
  · exact count_attempts_call_trace_aux api retry 0
  · exact sleeps_all_two_call_trace_aux api retry 0
  · exact sep_chk_call_trace_aux api retry 0
  · exact follow_chk_call_trace_aux api retry 0
  · exact attempts_sleeps_call_trace_aux api retry 0

/-- C2 (counterexample): when all three attempts raise, the trace ends
`attempt 2, sleep 2, ret None` — the last wait is not between two
attempts, refuting "no wait occurring other than between attempts". -/
theorem C2_counterexample :
    call_deepseek_trace (fun _ => .error "请求超时") 3 =
      [.attempt 0, .sleep 2, .attempt 1, .sleep 2, .attempt 2, .sleep 2, .ret none] ∧
    sleeps_before_attempts
      (call_deepseek_trace (fun _ => .error "请求超时") 3) = false := by
  exact ⟨rfl, rfl⟩

/-! ## C3 / C8: behaviour when the API fails or returns empty content -/

set_option maxRecDepth 8000

lemma call_aux_all_error (api : Nat → Except String String)
    (h : ∀ j, ∃ msg, api j = .error msg) :
    ∀ (fuel i : Nat), call_aux api i fuel = none := by
  intro fuel
  induction fuel with
  | zero => intro i; rfl
  | succ n ih =>
    intro i
    obtain ⟨msg, hmsg⟩ := h i
    simp only [call_aux, hmsg]
    exact ih (i + 1)

/-- `api_one_fail` is an API behaviour under which every attempt at the
narrative prompt of the theme 坚持 raises while every other call
succeeds — it exercises "all retries fail" for exactly one theme/genre
pair of the real `theme_matrix`. -/
def api_one_fail : String → Nat → Except String String :=
  fun p _ =>
    if p == build_prompt ⟨"成长类", "坚持", ["成长", "勇气"], none, none⟩ .narrative then
      .error "接口异常"
    else .ok "示例正文"

/-- C3: if every one of the retry attempts raises, `call_deepseek` returns
`None` and `generate_single_essay` then returns `None`; a theme entry
without the genre key produces no section for that genre in the rendered
Markdown (here for a missing narrative; the argumentative case is
symmetric by the same `match`); and — shown on the real theme matrix with
exactly the narrative calls of the theme 坚持 failing — generation
continues: every other theme/genre is generated and stored, the affected
entry merely lacks its `narrative` key, and no entry is dropped. -/
theorem C3_all_retries_fail_skips_content :
    (∀ (api : Nat → Except String String) (retry : Nat),
        (∀ j, ∃ msg, api j = .error msg) → call_deepseek api retry = none) ∧
    (∀ (api : String → Nat → Except String String) (now : String) (ti : ThemeData)
        (genre : Genre),
        (∀ j, ∃ msg, api (build_prompt ti genre) j = .error msg) →
        generate_single_essay api now ti genre = none) ∧
    (∀ t : ThemeData, t.narrative = none →
        theme_block t = theme_header t ++ argumentative_section t) ∧
    (generate_book api_one_fail "" theme_matrix).map
        (fun c => (c.cat, c.themes.map fun t => (t.theme, t.narrative.isSome, t.argumentative.isSome))) =
      [("成长类", [("坚持", false, true),
                   ("挫折", true, true), ("挫折", true, true),
                   ("自我突破", true, true), ("自我突破", true, true)]),
       ("情感类", [("亲情", true, true), ("亲情", true, true),
                   ("师生情", true, true), ("师生情", true, true),
                   ("陌生人温暖", true, true), ("陌生人温暖", true, true)]),
       ("社会类", [("传统文化", true, true), ("传统文化", true, true),
                   ("科技伦理", true, true), ("科技伦理", true, true),
                   ("环境保护", true, true), ("环境保护", true, true)])] := by
  refine ⟨?_, ?_, ?_, ?_⟩
  · intro api retry h
    exact call_aux_all_error api h retry 0
  · intro api now ti genre h
    unfold generate_single_essay
    simp only [call_deepseek, call_aux_all_error (api (build_prompt ti genre)) h 3 0]
  · intro t ht
    simp [theme_block, narrative_section, ht, String.append_empty, String.append_assoc]
  · rfl

/-- Witness for C3: the universally quantified parts applied at concrete
inputs — an API that always raises, and a theme entry lacking the
narrative key. -/
theorem C3_witness :
    call_deepseek (fun _ => .error "连接失败") 3 = none ∧
    generate_single_essay (fun _ _ => .error "连接失败") ""
      ⟨"成长类", "坚持", ["成长", "勇气"], none, none⟩ .narrative = none ∧
    theme_block ⟨"成长类", "坚持", ["成长", "勇气"], none,
        some ⟨"正文", ⟨"", "议论文", ["成长", "勇气"]⟩⟩⟩ =
      theme_header ⟨"成长类", "坚持", ["成长", "勇气"], none,
        some ⟨"正文", ⟨"", "议论文", ["成长", "勇气"]⟩⟩⟩ ++
      argumentative_section ⟨"成长类", "坚持", ["成长", "勇气"], none,
        some ⟨"正文", ⟨"", "议论文", ["成长", "勇气"]⟩⟩⟩ := by
  refine ⟨?_, ?_, ?_⟩
  · exact C3_all_retries_fail_skips_content.1 _ 3 (fun j => ⟨"连接失败", rfl⟩)
  · exact C3_all_retries_fail_skips_content.2.1 _ "" _ .narrative (fun j => ⟨"连接失败", rfl⟩)
  · exact C3_all_retries_fail_skips_content.2.2.1 _ rfl

/-- C8: a successful attempt that returns the empty string is treated like
a failure at `generate_single_essay`'s interface (`if not content`): the
function returns `None` and no essay is recorded. -/
theorem C8_empty_completion_gives_none (api : String → Nat → Except String String)
    (now : String) (ti : ThemeData) (genre : Genre)
    (h : call_deepseek (api (build_prompt ti genre)) 3 = some "") :
    generate_single_essay api now ti genre = none := by
  unfold generate_single_essay
  simp only [h]
  rfl

/-- Witness for C8: an API that immediately returns the empty string. -/
theorem C8_witness :
    call_deepseek ((fun (_ : String) (_ : Nat) => Except.ok "") "任意提示词") 3 = some "" ∧
    generate_single_essay (fun _ _ => Except.ok "") "2024-01-01 00:00:00"
      ⟨"成长类", "坚持", ["成长", "勇气"], none, none⟩ .narrative = none := by
  refine ⟨rfl, ?_⟩
  exact C8_empty_completion_gives_none (fun _ _ => Except.ok "") "2024-01-01 00:00:00"
    ⟨"成长类", "坚持", ["成长", "勇气"], none, none⟩ .narrative rfl

/-! ## C4 / C9 / C10: `_update_data` -/

lemma update_themes_theme_keys (themes : List ThemeData) (td : ThemeData)
    (h : (first_theme themes td.theme).isSome = true) :
    (update_themes themes td).map (fun t => t.theme) = themes.map (fun t => t.theme) := by
  induction themes with
  | nil => simp [first_theme] at h
  | cons t rest ih =>
    by_cases hb : (t.theme == td.theme) = true
    · have ht : t.theme = td.theme := beq_iff_eq.mp hb
      simp [update_themes, hb, dict_update, ht]
    · have h' : (first_theme rest td.theme).isSome = true := by
        rw [first_theme, List.find?_cons_of_neg] at h
        · exact h
        · simpa using hb
      simp only [update_themes, Bool.of_not_eq_true hb, Bool.false_eq_true, if_false,
        List.map_cons, ih h']

lemma update_themes_find (themes : List ThemeData) (td t0 : ThemeData)
    (h : first_theme themes td.theme = some t0) :
    first_theme (update_themes themes td) td.theme = some (dict_update t0 td) := by
  induction themes with
  | nil => simp [first_theme] at h
  | cons t rest ih =>
    by_cases hb : (t.theme == td.theme) = true
    · rw [first_theme] at h
      simp only [List.find?_cons, hb] at h
      obtain rfl : t0 = t := by injection h with h; exact h.symm
      have hd : ((dict_update t0 td).theme == td.theme) = true := by
        simp [dict_update]
      simp only [update_themes, hb, if_true, first_theme, List.find?_cons, hd]
    · have hb' : (t.theme == td.theme) = false := Bool.of_not_eq_true hb
      rw [first_theme] at h
      simp only [List.find?_cons, hb'] at h
      simp only [update_themes, hb', Bool.false_eq_true, if_false, first_theme,
        List.find?_cons, hb']
      exact ih h

lemma update_data_map (fd : List Category) (cc : Category) (td : ThemeData) (c : Category)
    (hc : first_category fd cc.cat = some c)
    (ht : (first_theme c.themes td.theme).isSome = true) :
    (update_data fd cc td).map (fun x => (x.cat, x.themes.map fun t => t.theme)) =
      fd.map (fun x => (x.cat, x.themes.map fun t => t.theme)) := by
  induction fd with
  | nil => simp [first_category] at hc
  | cons c1 rest ih =>
    by_cases hb : (c1.cat == cc.cat) = true
    · rw [first_category] at hc
      simp only [List.find?_cons, hb] at hc
      obtain rfl : c1 = c := by injection hc
      simp only [update_data, hb, if_true, List.map_cons]
      rw [update_themes_theme_keys c1.themes td ht]
    · have hb' : (c1.cat == cc.cat) = false := Bool.of_not_eq_true hb
      rw [first_category] at hc
      simp only [List.find?_cons, hb'] at hc
      simp only [update_data, hb', Bool.false_eq_true, if_false, List.map_cons, ih hc]

lemma update_data_find (fd : List Category) (cc : Category) (td : ThemeData) (c : Category)
    (hc : first_category fd cc.cat = some c) :
    first_category (update_data fd cc td) cc.cat =
      some ⟨c.cat, update_themes c.themes td⟩ := by
  induction fd with
  | nil => simp [first_category] at hc
  | cons c1 rest ih =>
    by_cases hb : (c1.cat == cc.cat) = true
    · rw [first_category] at hc
      simp only [List.find?_cons, hb] at hc
      obtain rfl : c1 = c := by injection hc
      simp only [update_data, hb, if_true, first_category, List.find?_cons]
    · have hb' : (c1.cat == cc.cat) = false := Bool.of_not_eq_true hb
      rw [first_category] at hc
      simp only [List.find?_cons, hb'] at hc
      simp only [update_data, hb', Bool.false_eq_true, if_false, first_category,
        List.find?_cons]
      exact ih hc

/-- C4: when the target category exists and already has an entry for the
theme key, `_update_data` overwrites that first matching entry in place
(`existing_theme.update(theme_data)`) and appends nothing: the whole
`分类`/`主题` key structure of `full_data` — in particular the length of
the category's themes list — is unchanged, and the matching entry now
holds the dictionary update of the old entry with `theme_data`. -/
theorem C4_existing_theme_overwritten (fd : List Category) (cc : Category) (td : ThemeData)
    (c : Category) (t0 : ThemeData)
    (hc : first_category fd cc.cat = some c)
    (ht : first_theme c.themes td.theme = some t0) :
    (update_data fd cc td).map (fun x => (x.cat, x.themes.map fun t => t.theme)) =
      fd.map (fun x => (x.cat, x.themes.map fun t => t.theme)) ∧
    first_category (update_data fd cc td) cc.cat =
      some ⟨c.cat, update_themes c.themes td⟩ ∧
    first_theme (update_themes c.themes td) td.theme = some (dict_update t0 td) := by
  refine ⟨?_, ?_, ?_⟩
  · exact update_data_map fd cc td c hc (by simp [ht])
  · exact update_data_find fd cc td c hc
  · exact update_themes_find c.themes td t0 ht

/-- Witness for C4 at a concrete state: category 成长类 already holds the
theme 坚持 with a narrative; updating with an argumentative version keeps
one entry and the key structure. -/
theorem C4_witness :
    first_category
        [⟨"成长类", [⟨"成长类", "坚持", ["成长", "勇气"],
            some ⟨"旧记叙文", ⟨"t1", "记叙文", ["成长", "勇气"]⟩⟩, none⟩]⟩] "成长类" =
      some ⟨"成长类", [⟨"成长类", "坚持", ["成长", "勇气"],
            some ⟨"旧记叙文", ⟨"t1", "记叙文", ["成长", "勇气"]⟩⟩, none⟩]⟩ ∧
    (update_data
        [⟨"成长类", [⟨"成长类", "坚持", ["成长", "勇气"],
            some ⟨"旧记叙文", ⟨"t1", "记叙文", ["成长", "勇气"]⟩⟩, none⟩]⟩]
        ⟨"成长类", []⟩
        ⟨"成长类", "坚持", ["成长", "勇气"], none,
            some ⟨"新议论文", ⟨"t2", "议论文", ["成长", "勇气"]⟩⟩⟩).map
        (fun x => (x.cat, x.themes.map fun t => t.theme)) =
      [("成长类", ["坚持"])] := by
  constructor
  · rfl
  · have h := C4_existing_theme_overwritten
      [⟨"成长类", [⟨"成长类", "坚持", ["成长", "勇气"],
          some ⟨"旧记叙文", ⟨"t1", "记叙文", ["成长", "勇气"]⟩⟩, none⟩]⟩]
      ⟨"成长类", []⟩
      ⟨"成长类", "坚持", ["成长", "勇气"], none,
          some ⟨"新议论文", ⟨"t2", "议论文", ["成长", "勇气"]⟩⟩⟩
      ⟨"成长类", [⟨"成长类", "坚持", ["成长", "勇气"],
          some ⟨"旧记叙文", ⟨"t1", "记叙文", ["成长", "勇气"]⟩⟩, none⟩]⟩
      ⟨"成长类", "坚持", ["成长", "勇气"],
          some ⟨"旧记叙文", ⟨"t1", "记叙文", ["成长", "勇气"]⟩⟩, none⟩
      rfl rfl
    exact h.1

/-- C9: merging a `theme_data` that carries only the argumentative key
into an existing theme entry keeps every key absent from `theme_data`
unchanged — `dict.update` only overwrites present keys — so a previously
stored narrative survives, and the new argumentative value is stored. -/
theorem C9_update_preserves_absent_keys (fd : List Category) (cc : Category) (td : ThemeData)
    (c : Category) (t0 : ThemeData)
    (hc : first_category fd cc.cat = some c)
    (ht : first_theme c.themes td.theme = some t0) :
    first_category (update_data fd cc td) cc.cat =
      some ⟨c.cat, update_themes c.themes td⟩ ∧
    first_theme (update_themes c.themes td) td.theme = some (dict_update t0 td) ∧
    (td.narrative = none → (dict_update t0 td).narrative = t0.narrative) ∧
    (td.argumentative = none → (dict_update t0 td).argumentative = t0.argumentative) ∧
    (∀ e, td.argumentative = some e → (dict_update t0 td).argumentative = some e) := by
  refine ⟨update_data_find fd cc td c hc, update_themes_find c.themes td t0 ht, ?_, ?_, ?_⟩
  · intro hn; simp [dict_update, hn]
  · intro ha; simp [dict_update, ha]
  · intro e ha; simp [dict_update, ha]

/-- Witness for C9: merging an argumentative-only update preserves the
stored narrative. -/
theorem C9_witness :
    (first_theme
        (update_themes
          [⟨"成长类", "坚持", ["成长", "勇气"],
              some ⟨"旧记叙文", ⟨"t1", "记叙文", ["成长", "勇气"]⟩⟩, none⟩]
          ⟨"成长类", "坚持", ["成长", "勇气"], none,
              some ⟨"新议论文", ⟨"t2", "议论文", ["成长", "勇气"]⟩⟩⟩) "坚持").map
        (fun t => (t.narrative, t.argumentative)) =
      some (some ⟨"旧记叙文", ⟨"t1", "记叙文", ["成长", "勇气"]⟩⟩,
            some ⟨"新议论文", ⟨"t2", "议论文", ["成长", "勇气"]⟩⟩) := by
  have h := C9_update_preserves_absent_keys
    [⟨"成长类", [⟨"成长类", "坚持", ["成长", "勇气"],
        some ⟨"旧记叙文", ⟨"t1", "记叙文", ["成长", "勇气"]⟩⟩, none⟩]⟩]
    ⟨"成长类", []⟩
    ⟨"成长类", "坚持", ["成长", "勇气"], none,
        some ⟨"新议论文", ⟨"t2", "议论文", ["成长", "勇气"]⟩⟩⟩
    ⟨"成长类", [⟨"成长类", "坚持", ["成长", "勇气"],
        some ⟨"旧记叙文", ⟨"t1", "记叙文", ["成长", "勇气"]⟩⟩, none⟩]⟩
    ⟨"成长类", "坚持", ["成长", "勇气"],
        some ⟨"旧记叙文", ⟨"t1", "记叙文", ["成长", "勇气"]⟩⟩, none⟩
    rfl rfl
  rw [h.2.1]
  have hn := h.2.2.1 rfl
  have ha := h.2.2.2.2 _ rfl
  simp [hn, ha]

/-- C10: when `full_data` holds no category with the key of
`current_category`, `_update_data` appends `current_category` itself and
returns at once: the new category is now present, and `theme_data` sits in
its themes list exactly when it already sat in `current_category`'s. -/
theorem C10_missing_category_appended (fd : List Category) (cc : Category) (td : ThemeData)
    (h : ∀ c ∈ fd, ¬ c.cat = cc.cat) :
    update_data fd cc td = fd ++ [cc] ∧
    first_category (update_data fd cc td) cc.cat = some cc ∧
    (td ∈ (((update_data fd cc td).getLast?).getD ⟨"", []⟩).themes ↔ td ∈ cc.themes) := by
  have h1 : update_data fd cc td = fd ++ [cc] := by
    induction fd with
    | nil => rfl
    | cons c1 rest ih =>
      have hb : (c1.cat == cc.cat) = false := by
        simpa using h c1 (List.mem_cons_self c1 rest)
      simp only [update_data, hb, Bool.false_eq_true, if_false, List.cons_append]
      rw [ih (fun c hcmem => h c (List.mem_cons_of_mem c1 hcmem))]
  have h2 : ∀ (l : List Category), (∀ c ∈ l, ¬ c.cat = cc.cat) →
      first_category (l ++ [cc]) cc.cat = some cc := by
    intro l
    induction l with
    | nil =>
      intro _
      simp [first_category, List.find?_cons]
    | cons c1 rest ih =>
      intro hl
      have hb : (c1.cat == cc.cat) = false := by
        simpa using hl c1 (List.mem_cons_self c1 rest)
      rw [List.cons_append, first_category]
      simp only [List.find?_cons, hb]
      exact ih (fun c hcmem => hl c (List.mem_cons_of_mem c1 hcmem))
  refine ⟨h1, ?_, ?_⟩
  · rw [h1]
    exact h2 fd h
  · rw [h1, List.getLast?_concat]
    simp

/-- Witness for C10: a `full_data` with only 成长类, updated for the
category 情感类. -/
theorem C10_witness :
    update_data [⟨"成长类", []⟩]
        ⟨"情感类", [⟨"情感类", "亲情", ["温暖", "感动"], none, none⟩]⟩
        ⟨"情感类", "师生情", ["温暖", "感动"], none, none⟩ =
      [⟨"成长类", []⟩, ⟨"情感类", [⟨"情感类", "亲情", ["温暖", "感动"], none, none⟩]⟩] := by
  have h := C10_missing_category_appended [⟨"成长类", []⟩]
    ⟨"情感类", [⟨"情感类", "亲情", ["温暖", "感动"], none, none⟩]⟩
    ⟨"情感类", "师生情", ["温暖", "感动"], none, none⟩
    (by intro c hc; simp at hc; subst hc; decide)
  exact h.1

/-! ## C1: the uniqueness invariant on theme keys during `generate_book` -/

/-- C1 (violation, evaluated): running `generate_book` over the script's
own `theme_matrix` with every API call succeeding leaves every theme key
twice in its category's themes list: once the call to `_update_data`
appends `theme_data` into the aliased `current_category`, the
unconditional `current_category["themes"].append(theme_data)` at the end
of the loop body inserts the same dictionary a second time. -/
theorem C1_theme_key_duplicated :
    (generate_book (fun _ _ => Except.ok "示例正文") "" theme_matrix).map
        (fun c => (c.cat, c.themes.map fun t => t.theme)) =
      [("成长类", ["坚持", "坚持", "挫折", "挫折", "自我突破", "自我突破"]),
       ("情感类", ["亲情", "亲情", "师生情", "师生情", "陌生人温暖", "陌生人温暖"]),
       ("社会类", ["传统文化", "传统文化", "科技伦理", "科技伦理", "环境保护", "环境保护"])] ∧
    ¬ (∀ c ∈ generate_book (fun _ _ => Except.ok "示例正文") "" theme_matrix,
        (c.themes.map fun t => t.theme).Nodup) := by
  constructor
  · rfl
  · decide

/-! ## C6: verbatim substitution into the prompt templates -/

/-- C6: the prompt is the template with the supplied theme, the first
keyword (the `object` field), and the `、`-joined keyword string spliced
verbatim into the placeholder positions, everything else identical to the
template; the final two conjuncts exhibit the placeholder decomposition
of the two templates. -/
theorem C6_prompt_substitutes_verbatim (ti : ThemeData) (k : String) (ks : List String)
    (h : ti.keywords = k :: ks) :
    build_prompt ti .narrative =
      "你是一位中考作文专家，请根据以下要求创作记叙文：\n主题：" ++ (ti.theme ++
        ("\n要求：\n1. 使用【" ++ (k ++
          ("】作为核心意象\n2. 包含3个感官细节（视觉/听觉/触觉各1个）\n3. 采用双线结构（明线：" ++ (k ++
            "变化，暗线：情感变化）\n4. 结尾用\"原来...\"句式升华"))))) ∧
    build_prompt ti .argumentative =
      "你是一位中考作文专家，请根据以下要求创作议论文：\n主题：" ++ (ti.theme ++
        ("\n要求：\n1. 使用\"现象-论点-正反论证-结论\"结构\n2. 包含1句古诗文引用和1个现代案例\n3. 结尾使用排比句式\n4. 关键词：" ++
          String.intercalate "、" (k :: ks))) ∧
    narrative_template =
      "你是一位中考作文专家，请根据以下要求创作记叙文：\n主题：" ++ ("{theme}" ++
        ("\n要求：\n1. 使用【" ++ ("{object}" ++
          ("】作为核心意象\n2. 包含3个感官细节（视觉/听觉/触觉各1个）\n3. 采用双线结构（明线：" ++ ("{object}" ++
            "变化，暗线：情感变化）\n4. 结尾用\"原来...\"句式升华"))))) ∧
    argumentative_template =
      "你是一位中考作文专家，请根据以下要求创作议论文：\n主题：" ++ ("{theme}" ++
        ("\n要求：\n1. 使用\"现象-论点-正反论证-结论\"结构\n2. 包含1句古诗文引用和1个现代案例\n3. 结尾使用排比句式\n4. 关键词：" ++
          "{keywords}")) := by
  obtain ⟨c0, th, kws, na, ag⟩ := ti
  simp only at h
  subst h
  refine ⟨rfl, ?_, rfl, rfl⟩
  have h2 : build_prompt ⟨c0, th, k :: ks, na, ag⟩ .argumentative =
      "你是一位中考作文专家，请根据以下要求创作议论文：\n主题：" ++ (th ++
        ("\n要求：\n1. 使用\"现象-论点-正反论证-结论\"结构\n2. 包含1句古诗文引用和1个现代案例\n3. 结尾使用排比句式\n4. 关键词：" ++
          (String.intercalate "、" (k :: ks) ++ ""))) := rfl
  rw [String.append_empty] at h2
  exact h2

/-- Witness for C6 at the theme 坚持 of the real matrix. -/
theorem C6_witness :
    build_prompt ⟨"成长类", "坚持", ["成长", "勇气"], none, none⟩ .narrative =
      "你是一位中考作文专家，请根据以下要求创作记叙文：\n主题：" ++ ("坚持" ++
        ("\n要求：\n1. 使用【" ++ ("成长" ++
          ("】作为核心意象\n2. 包含3个感官细节（视觉/听觉/触觉各1个）\n3. 采用双线结构（明线：" ++ ("成长" ++
            "变化，暗线：情感变化）\n4. 结尾用\"原来...\"句式升华"))))) ∧
    build_prompt ⟨"成长类", "坚持", ["成长", "勇气"], none, none⟩ .argumentative =
      "你是一位中考作文专家，请根据以下要求创作议论文：\n主题：" ++ ("坚持" ++
        ("\n要求：\n1. 使用\"现象-论点-正反论证-结论\"结构\n2. 包含1句古诗文引用和1个现代案例\n3. 结尾使用排比句式\n4. 关键词：" ++
          String.intercalate "、" ("成长" :: ["勇气"]))) := by
  have h := C6_prompt_substitutes_verbatim
    ⟨"成长类", "坚持", ["成长", "勇气"], none, none⟩ "成长" ["勇气"] rfl
  exact ⟨h.1, h.2.1⟩

/-! ## C7: layout of a theme's section in the rendered Markdown -/

lemma md_theme_step_eq (md : String) (t : ThemeData) :
    md_theme_step md t = md ++ theme_block t := by
  apply String.ext
  cases hn : t.narrative <;> cases ha : t.argumentative <;>
    simp [md_theme_step, theme_block, theme_header, narrative_section,
      argumentative_section, hn, ha, String.data_append, List.append_assoc]

lemma foldl_md_theme (l : List ThemeData) :
    ∀ init : String, l.foldl md_theme_step init = init ++ str_join (l.map theme_block) := by
  induction l with
  | nil => intro init; simp [str_join, String.append_empty]
  | cons t rest ih =>
    intro init
    rw [List.foldl_cons, md_theme_step_eq, ih, List.map_cons, str_join,
      String.append_assoc]

lemma md_category_step_eq (md : String) (c : Category) :
    md_category_step md c = md ++ category_block c := by
  rw [md_category_step, foldl_md_theme, category_block]
  simp [String.append_assoc]

lemma foldl_md_category (l : List Category) :
    ∀ init : String, l.foldl md_category_step init = init ++ str_join (l.map category_block) := by
  induction l with
  | nil => intro init; simp [str_join, String.append_empty]
  | cons c rest ih =>
    intro init
    rw [List.foldl_cons, md_category_step_eq, ih, List.map_cons, str_join,
      String.append_assoc]

lemma build_markdown_blocks (data : List Category) :
    build_markdown data = "# 中考双文体范文库\n\n" ++ str_join (data.map category_block) := by
  rw [build_markdown, foldl_md_category]

/-- C7: the rendered document is the title followed, per category, by its
heading and, per theme entry, by exactly this layout in this order: the
theme heading, the keyword line, then — each only when present — the
labeled narrative section and the labeled argumentative section, the
content of each genre section enclosed between `---` horizontal rules. -/
theorem C7_theme_section_layout (data : List Category) :
    build_markdown data =
      "# 中考双文体范文库\n\n" ++
        str_join (data.map fun c =>
          "## " ++ (c.cat ++ ("\n\n" ++
            str_join (c.themes.map fun t =>
              "### 主题：" ++ (t.theme ++ ("\n" ++ ("**关键词**：`" ++
                (String.intercalate "、" t.keywords ++ ("`\n\n" ++
                  ((match t.narrative with
                    | some e => "#### 记叙文\n---\n" ++ (e.content ++ "\n\n---\n\n")
                    | none => "") ++
                   (match t.argumentative with
                    | some e => "#### 议论文\n---\n" ++ (e.content ++ "\n\n---\n\n")
                    | none => ""))))))))))) := by
  rw [build_markdown_blocks]
  have hthm : theme_block = fun t : ThemeData =>
      "### 主题：" ++ (t.theme ++ ("\n" ++ ("**关键词**：`" ++
        (String.intercalate "、" t.keywords ++ ("`\n\n" ++
          ((match t.narrative with
            | some e => "#### 记叙文\n---\n" ++ (e.content ++ "\n\n---\n\n")
            | none => "") ++
           (match t.argumentative with
            | some e => "#### 议论文\n---\n" ++ (e.content ++ "\n\n---\n\n")
            | none => ""))))))) := by
    funext t
    apply String.ext
    cases hn : t.narrative <;> cases ha : t.argumentative <;>
      simp [theme_block, theme_header, narrative_section, argumentative_section,
        hn, ha, String.data_append, List.append_assoc]
  have hcat : category_block = fun c : Category =>
      "## " ++ (c.cat ++ ("\n\n" ++
        str_join (c.themes.map fun t =>
          "### 主题：" ++ (t.theme ++ ("\n" ++ ("**关键词**：`" ++
            (String.intercalate "、" t.keywords ++ ("`\n\n" ++
              ((match t.narrative with
                | some e => "#### 记叙文\n---\n" ++ (e.content ++ "\n\n---\n\n")
                | none => "") ++
               (match t.argumentative with
                | some e => "#### 议论文\n---\n" ++ (e.content ++ "\n\n---\n\n")
                | none => "")))))))))) := by
    funext c
    simp [category_block, hthm, String.append_assoc]
  rw [hcat]

/-! ## C5: counting heading lines in the rendered document -/

/-- The category-heading pattern `## `. -/
def pat_cat : List Char := "## ".data

/-- The theme-subheading pattern `### 主题：`. -/
def pat_theme : List Char := "### 主题：".data

lemma isPrefixOf_self_append (p l : List Char) : p.isPrefixOf (p ++ l) = true := by
  induction p with
  | nil => simp [List.isPrefixOf]
  | cons a as ih => simp [List.isPrefixOf, ih]

lemma isPrefixOf_append_cons (c : Char) :
    ∀ (p s r : List Char), c ∉ p → p.isPrefixOf (s ++ c :: r) = p.isPrefixOf s := by
  intro p
  induction p with
  | nil => intro s r _; simp [List.isPrefixOf]
  | cons a as ih =>
    intro s r hc
    have hca : ¬ c = a := by
      intro hh; exact hc (by simp [hh])
    have hcas : c ∉ as := fun hmem => hc (List.mem_cons_of_mem a hmem)
    cases s with
    | nil =>
      have hac : (a == c) = false := by
        simp [beq_eq_false_iff_ne]
        intro hh; exact hca hh.symm
      simp [List.isPrefixOf, hac]
    | cons b s' =>
      simp only [List.cons_append, List.isPrefixOf, List.append_eq]
      rw [ih s' r hcas]

lemma line_count_rest_append_cons (p : List Char) (c : Char) (hc : c ∉ p) :
    ∀ (s r : List Char), line_count_rest p (s ++ c :: r) =
      line_count_rest p s + line_count_rest p (c :: r) := by
  intro s
  induction s with
  | nil => intro r; simp [line_count_rest]
  | cons d s' ih =>
    intro r
    simp only [List.cons_append, line_count_rest, List.append_eq,
      isPrefixOf_append_cons c p s' r hc, ih r]
    omega

lemma line_count_rest_newline (p r : List Char) :
    line_count_rest p ('\n' :: r) = line_count p r := by
  simp [line_count_rest, line_count]

lemma line_count_split (p : List Char) (hnl : ('\n' : Char) ∉ p) (s r : List Char) :
    line_count p (s ++ '\n' :: r) = line_count p s + line_count p r := by
  unfold line_count
  rw [isPrefixOf_append_cons '\n' p s r hnl,
    line_count_rest_append_cons p '\n' hnl s r, line_count_rest_newline]
  unfold line_count
  omega

lemma line_count_rest_append_nl_free (p : List Char) :
    ∀ (l X : List Char), ('\n' : Char) ∉ l →
      line_count_rest p (l ++ X) = line_count_rest p l + line_count_rest p X := by
  intro l
  induction l with
  | nil => intro X _; simp [line_count_rest]
  | cons d l' ih =>
    intro X h
    have hd : ¬ d = '\n' := by
      intro hh; exact h (by simp [hh])
    have hl' : ('\n' : Char) ∉ l' := fun hmem => h (List.mem_cons_of_mem d hmem)
    simp only [List.cons_append, line_count_rest, List.append_eq]
    rw [if_neg hd, if_neg hd, ih X hl']
    omega

lemma line_count_zero_parts (p l : List Char) (h : line_count p l = 0) :
    p.isPrefixOf l = false ∧ line_count_rest p l = 0 := by
  unfold line_count at h
  by_cases hp : p.isPrefixOf l = true
  · rw [if_pos hp] at h; omega
  · refine ⟨Bool.of_not_eq_true hp, ?_⟩
    rw [if_neg hp] at h
    omega

lemma line_count_chain (p : List Char) (hnl : ('\n' : Char) ∉ p) (A B R : List Char) :
    line_count p (A ++ (B ++ ('\n' :: R))) = line_count p (A ++ B) + line_count p R := by
  rw [← List.append_assoc, line_count_split p hnl (A ++ B) R]

lemma line_count_chain3 (p : List Char) (hnl : ('\n' : Char) ∉ p) (A B C R : List Char) :
    line_count p (A ++ (B ++ (C ++ ('\n' :: R)))) =
      line_count p (A ++ (B ++ C)) + line_count p R := by
  rw [← List.append_assoc B C, ← List.append_assoc A, line_count_split p hnl]

lemma line_count_cons_newline (p : List Char)
    (hm : ∀ X, p.isPrefixOf ('\n' :: X) = false) (X : List Char) :
    line_count p ('\n' :: X) = line_count p X := by
  unfold line_count
  rw [hm X, line_count_rest_newline]
  unfold line_count
  simp

lemma pat_theme_not_cat_hdr (X : List Char) :
    pat_theme.isPrefixOf ("## ".data ++ X) = false := by
  have h1 : "## ".data = '#' :: '#' :: ' ' :: [] := rfl
  rw [h1]
  simp [pat_theme, List.isPrefixOf]

lemma pat_cat_not_theme_hdr (X : List Char) :
    pat_cat.isPrefixOf ("### 主题：".data ++ X) = false := by
  have h1 : "### 主题：".data = '#' :: '#' :: '#' :: ' ' :: '主' :: '题' :: '：' :: [] := rfl
  rw [h1]
  simp [pat_cat, List.isPrefixOf]

lemma pat_cat_not_kw (X : List Char) :
    pat_cat.isPrefixOf ("**关键词**：`".data ++ X) = false := by
  have h1 : "**关键词**：`".data =
      '*' :: '*' :: '关' :: '键' :: '词' :: '*' :: '*' :: '：' :: '`' :: [] := rfl
  rw [h1]
  simp [pat_cat, List.isPrefixOf]

lemma pat_theme_not_kw (X : List Char) :
    pat_theme.isPrefixOf ("**关键词**：`".data ++ X) = false := by
  have h1 : "**关键词**：`".data =
      '*' :: '*' :: '关' :: '键' :: '词' :: '*' :: '*' :: '：' :: '`' :: [] := rfl
  rw [h1]
  simp [pat_theme, List.isPrefixOf]

/-- Everything the counting argument needs to know about a heading pattern
`p`: it contains no newline and no backtick, it cannot start at a newline,
how it scores against the fixed heading prefixes of `build_markdown`
(`bthm` at a theme subheading, `bcat` at a category heading), that it
counts nothing inside the fixed literals, and that `clean_for` strings
contribute no `p`-line. -/
structure PatOk (p : List Char) (bthm bcat : Nat) : Prop where
  nl : ('\n' : Char) ∉ p
  bt : ('`' : Char) ∉ p
  mark_nl : ∀ X, p.isPrefixOf ('\n' :: X) = false
  mark_hdr : ∀ X, (if p.isPrefixOf ("### 主题：".data ++ X) = true then 1 else 0) = bthm
  rest_hdr : line_count_rest p "### 主题：".data = 0
  mark_kw : ∀ X, p.isPrefixOf ("**关键词**：`".data ++ X) = false
  rest_kw : line_count_rest p "**关键词**：`".data = 0
  mark_cat : ∀ X, (if p.isPrefixOf ("## ".data ++ X) = true then 1 else 0) = bcat
  rest_cat : line_count_rest p "## ".data = 0
  cnt_narr : line_count p "#### 记叙文".data = 0
  cnt_argu : line_count p "#### 议论文".data = 0
  cnt_dash : line_count p "---".data = 0
  cnt_title : line_count p "# 中考双文体范文库".data = 0
  cnt_nil : line_count p [] = 0
  clean_imp : ∀ s : String, clean_for s → line_count p s.data = 0

lemma patok_cat : PatOk pat_cat 0 1 := by
  refine ⟨by decide, by decide, ?_, ?_, by decide, pat_cat_not_kw, by decide,
    ?_, by decide, by decide, by decide, by decide, by decide, by decide, ?_⟩
  · intro X
    have h1 : pat_cat = '#' :: '#' :: ' ' :: [] := rfl
    rw [h1]
    simp [List.isPrefixOf]
  · intro X
    rw [pat_cat_not_theme_hdr X]
    simp
  · intro X
    have h1 : "## ".data = pat_cat := rfl
    rw [h1, isPrefixOf_self_append]
    simp
  · intro s hs
    exact hs.1

lemma patok_theme : PatOk pat_theme 1 0 := by
  refine ⟨by decide, by decide, ?_, ?_, by decide, pat_theme_not_kw, by decide,
    ?_, by decide, by decide, by decide, by decide, by decide, by decide, ?_⟩
  · intro X
    have h1 : pat_theme = '#' :: '#' :: '#' :: ' ' :: '主' :: '题' :: '：' :: [] := rfl
    rw [h1]
    simp [List.isPrefixOf]
  · intro X
    have h1 : "### 主题：".data = pat_theme := rfl
    rw [h1, isPrefixOf_self_append]
    simp
  · intro X
    rw [pat_theme_not_cat_hdr X]
    simp
  · intro s hs
    exact hs.2

lemma narrative_section_count (p : List Char) (bthm bcat : Nat) (h : PatOk p bthm bcat)
    (t : ThemeData) (hc : ∀ e, t.narrative = some e → line_count p e.content.data = 0) :
    ∀ r, line_count p ((narrative_section t).data ++ r) = line_count p r := by
  intro r
  cases hn : t.narrative with
  | none =>
    have master : (narrative_section t).data ++ r = r := by
      simp only [narrative_section, hn]
      rfl
    rw [master]
  | some e =>
    have hcc := hc e hn
    have master : (narrative_section t).data ++ r =
        "#### 记叙文".data ++ ('\n' :: ("---".data ++ ('\n' :: (e.content.data ++
          ('\n' :: ('\n' :: ("---".data ++ ('\n' :: ('\n' :: r))))))))) := by
      simp [narrative_section, hn, String.data_append, List.append_assoc,
        List.cons_append]
    rw [master, line_count_split p h.nl, line_count_split p h.nl,
      line_count_split p h.nl, line_count_cons_newline p h.mark_nl,
      line_count_split p h.nl, line_count_cons_newline p h.mark_nl,
      h.cnt_narr, h.cnt_dash, hcc]
    omega

lemma argumentative_section_count (p : List Char) (bthm bcat : Nat) (h : PatOk p bthm bcat)
    (t : ThemeData) (hc : ∀ e, t.argumentative = some e → line_count p e.content.data = 0) :
    ∀ r, line_count p ((argumentative_section t).data ++ r) = line_count p r := by
  intro r
  cases hn : t.argumentative with
  | none =>
    have master : (argumentative_section t).data ++ r = r := by
      simp only [argumentative_section, hn]
      rfl
    rw [master]
  | some e =>
    have hcc := hc e hn
    have master : (argumentative_section t).data ++ r =
        "#### 议论文".data ++ ('\n' :: ("---".data ++ ('\n' :: (e.content.data ++
          ('\n' :: ('\n' :: ("---".data ++ ('\n' :: ('\n' :: r))))))))) := by
      simp [argumentative_section, hn, String.data_append, List.append_assoc,
        List.cons_append]
    rw [master, line_count_split p h.nl, line_count_split p h.nl,
      line_count_split p h.nl, line_count_cons_newline p h.mark_nl,
      line_count_split p h.nl, line_count_cons_newline p h.mark_nl,
      h.cnt_argu, h.cnt_dash, hcc]
    omega

lemma theme_block_count (p : List Char) (bthm bcat : Nat) (h : PatOk p bthm bcat)
    (t : ThemeData) (hc : theme_clean t) :
    ∀ r, line_count p ((theme_block t).data ++ r) = bthm + line_count p r := by
  intro r
  obtain ⟨hth_mark, hth_rest⟩ := line_count_zero_parts p _ (h.clean_imp _ hc.1)
  obtain ⟨hkw_mark, hkw_rest⟩ := line_count_zero_parts p _ (h.clean_imp _ hc.2.1)
  have master : (theme_block t).data ++ r =
      "### 主题：".data ++ (t.theme.data ++ ('\n' :: ("**关键词**：`".data ++
        ((String.intercalate "、" t.keywords).data ++ (['`'] ++ ('\n' :: ('\n' ::
          ((narrative_section t).data ++ ((argumentative_section t).data ++ r))))))))) := by
    simp [theme_block, theme_header, String.data_append, List.append_assoc,
      List.cons_append]
  rw [master, line_count_chain p h.nl, line_count_chain3 p h.nl]
  have e1 : line_count p ("### 主题：".data ++ t.theme.data) = bthm := by
    unfold line_count
    rw [line_count_rest_append_nl_free p _ _ (by decide), h.rest_hdr, hth_rest]
    have := h.mark_hdr t.theme.data
    omega
  have e2 : line_count p ("**关键词**：`".data ++
      ((String.intercalate "、" t.keywords).data ++ ['`'])) = 0 := by
    unfold line_count
    rw [h.mark_kw, line_count_rest_append_nl_free p _ _ (by decide), h.rest_kw,
      line_count_rest_append_cons p '`' h.bt _ []]
    have e3 : line_count_rest p ['`'] = 0 := by
      simp [line_count_rest]
    rw [hkw_rest, e3]
    simp
  rw [e1, e2, line_count_cons_newline p h.mark_nl,
    narrative_section_count p bthm bcat h t (fun e he => h.clean_imp _ (hc.2.2.1 e he)),
    argumentative_section_count p bthm bcat h t (fun e he => h.clean_imp _ (hc.2.2.2 e he))]
  omega

lemma themes_join_count (p : List Char) (bthm bcat : Nat) (h : PatOk p bthm bcat) :
    ∀ (l : List ThemeData), (∀ t ∈ l, theme_clean t) →
      ∀ r, line_count p ((str_join (l.map theme_block)).data ++ r) =
        bthm * l.length + line_count p r := by
  intro l
  induction l with
  | nil =>
    intro _ r
    have master : (str_join (List.map theme_block [])).data ++ r = r := by
      simp [str_join]
    rw [master]
    simp
  | cons t rest ih =>
    intro hcl r
    have master : (str_join (List.map theme_block (t :: rest))).data ++ r =
        (theme_block t).data ++ ((str_join (List.map theme_block rest)).data ++ r) := by
      simp [str_join, String.data_append, List.append_assoc]
    rw [master, theme_block_count p bthm bcat h t (hcl t (List.mem_cons_self t rest)),
      ih (fun x hx => hcl x (List.mem_cons_of_mem t hx)) r]
    simp [List.length_cons]
    ring

lemma category_block_count (p : List Char) (bthm bcat : Nat) (h : PatOk p bthm bcat)
    (c : Category) (hc : cat_clean c) :
    ∀ r, line_count p ((category_block c).data ++ r) =
      bcat + bthm * c.themes.length + line_count p r := by
  intro r
  obtain ⟨hcat_mark, hcat_rest⟩ := line_count_zero_parts p _ (h.clean_imp _ hc.1)
  have master : (category_block c).data ++ r =
      "## ".data ++ (c.cat.data ++ ('\n' :: ('\n' ::
        ((str_join (c.themes.map theme_block)).data ++ r)))) := by
    simp [category_block, String.data_append, List.append_assoc, List.cons_append]
  rw [master, line_count_chain p h.nl]
  have e1 : line_count p ("## ".data ++ c.cat.data) = bcat := by
    unfold line_count
    rw [line_count_rest_append_nl_free p _ _ (by decide), h.rest_cat, hcat_rest]
    have := h.mark_cat c.cat.data
    omega
  rw [e1, line_count_cons_newline p h.mark_nl,
    themes_join_count p bthm bcat h c.themes hc.2 r]
  ring

lemma cats_join_count (p : List Char) (bthm bcat : Nat) (h : PatOk p bthm bcat) :
    ∀ (l : List Category), (∀ c ∈ l, cat_clean c) →
      ∀ r, line_count p ((str_join (l.map category_block)).data ++ r) =
        bcat * l.length + bthm * (l.map fun c => c.themes.length).sum + line_count p r := by
  intro l
  induction l with
  | nil =>
    intro _ r
    have master : (str_join (List.map category_block [])).data ++ r = r := by
      simp [str_join]
    rw [master]
    simp
  | cons c rest ih =>
    intro hcl r
    have master : (str_join (List.map category_block (c :: rest))).data ++ r =
        (category_block c).data ++ ((str_join (List.map category_block rest)).data ++ r) := by
      simp [str_join, String.data_append, List.append_assoc]
    rw [master, category_block_count p bthm bcat h c (hcl c (List.mem_cons_self c rest)),
      ih (fun x hx => hcl x (List.mem_cons_of_mem c hx)) r]
    simp [List.map_cons, List.sum_cons]
    ring

lemma build_count (p : List Char) (bthm bcat : Nat) (h : PatOk p bthm bcat)
    (data : List Category) (hclean : ∀ c ∈ data, cat_clean c) :
    line_count p (build_markdown data).data =
      bcat * data.length + bthm * (data.map fun c => c.themes.length).sum := by
  have master : (build_markdown data).data =
      "# 中考双文体范文库".data ++ ('\n' :: ('\n' ::
        ((str_join (data.map category_block)).data ++ []))) := by
    rw [build_markdown_blocks]
    simp [String.data_append, List.append_assoc, List.cons_append]
  rw [master, line_count_split p h.nl, h.cnt_title,
    line_count_cons_newline p h.mark_nl,
    cats_join_count p bthm bcat h data hclean [], h.cnt_nil]
  omega

/-- C5 (amended): when none of the embedded strings (category names, theme
names, joined keyword strings, stored essay contents) has a line beginning
`## ` or `### 主题：`, the rendered document has exactly one line starting
`## ` per category object and exactly one line starting `### 主题：` per
theme entry of the structure. -/
theorem C5_heading_counts (data : List Category) (hclean : ∀ c ∈ data, cat_clean c) :
    count_headed "## " (build_markdown data) = data.length ∧
    count_headed "### 主题：" (build_markdown data) =
      (data.map fun c => c.themes.length).sum := by
  constructor
  · have hb := build_count pat_cat 0 1 patok_cat data hclean
    have hdef : count_headed "## " (build_markdown data) =
        line_count pat_cat (build_markdown data).data := rfl
    rw [hdef, hb]
    omega
  · have hb := build_count pat_theme 1 0 patok_theme data hclean
    have hdef : count_headed "### 主题：" (build_markdown data) =
        line_count pat_theme (build_markdown data).data := rfl
    rw [hdef, hb]
    omega

/-- A stored essay whose content smuggles in a line starting `## `. -/
def c5_bad_data : List Category :=
  [⟨"成长类", [⟨"成长类", "坚持", ["成长"],
      some ⟨"正文第一行\n## 注入的假分类", ⟨"t1", "记叙文", ["成长"]⟩⟩, none⟩]⟩]

/-- C5 (counterexample): for a structure with one category whose stored
essay content contains a line beginning `## `, the rendered document has
two such lines, not one per category — the claim fails without an
assumption on the embedded strings. -/
theorem C5_counterexample :
    c5_bad_data.length = 1 ∧
    count_headed "## " (build_markdown c5_bad_data) = 2 := by
  exact ⟨rfl, by decide⟩

/-- A clean two-category structure used to witness `C5_heading_counts`. -/
def c5_clean_data : List Category :=
  [⟨"成长类", [⟨"成长类", "坚持", ["成长", "勇气"],
      some ⟨"范文正文第一行\n范文正文第二行", ⟨"t1", "记叙文", ["成长", "勇气"]⟩⟩, none⟩]⟩,
   ⟨"情感类", []⟩]

/-- Witness for C5 at a concrete clean structure: two categories, one
theme entry. -/
theorem C5_witness :
    (∀ c ∈ c5_clean_data, cat_clean c) ∧
    count_headed "## " (build_markdown c5_clean_data) = c5_clean_data.length ∧
    count_headed "### 主题：" (build_markdown c5_clean_data) =
      (c5_clean_data.map fun c => c.themes.length).sum := by
  have hcl : ∀ c ∈ c5_clean_data, cat_clean c := by decide
  exact ⟨hcl, (C5_heading_counts c5_clean_data hcl).1, (C5_heading_counts c5_clean_data hcl).2⟩
